import Mathlib

/-!
Shallow embedding of the TOML compliance suite runner (src/run.py).

Conventions of the embedding:
* Python exceptions are modeled by `Except PyError`: raising is `.error`,
  and un-caught propagation is the explicit `.error e => .error e` match arm.
* Byte streams (stdin, stdout, stderr, file contents) are modeled as `String`.
* An external program under test is modeled by its filesystem status
  (`os.path.isfile`, `os.access(X_OK)`) together with a pure function from
  its standard-input string to the outcome of `subprocess.run`.
* `json.loads` is modeled by an executable recursive-descent parser `loads`
  over the JSON subset the fixture corpus uses (null, booleans, integers,
  escape-free strings, arrays, objects), and Python value equality `==` on
  the parsed values by `pyEq` (dictionaries compare as key lookup maps,
  `True == 1` as in Python; floats are outside the modeled subset).
-/

/-! ## JSON values and Python deep equality -/

inductive Json where
  | null : Json
  | bool (b : Bool) : Json
  | num (n : Int) : Json
  | str (s : String) : Json
  | arr (xs : List Json) : Json
  | obj (kvs : List (String × Json)) : Json

/-- Python dict key lookup on the association list representing a dict. -/
def dictLookup : List (String × Json) → String → Option Json
  | [], _ => none
  | kv :: rest, key => if kv.1 == key then some kv.2 else dictLookup rest key

/-- Python `==` on JSON-loaded values, with explicit recursion fuel so the
definition is structurally recursive (the fuel used by `pyEq` always exceeds
the nesting depth, so it is never exhausted on actual comparisons).
Dicts compare as maps: equal size and every key of the left dict is present
in the right with `==` values, exactly as CPython compares dicts.
`True == 1` and `False == 0` hold, as in Python. -/
def pyEqFuel : Nat → Json → Json → Bool
  | 0, _, _ => false
  | fuel + 1, a, b =>
    match a, b with
    | .null, .null => true
    | .bool x, .bool y => x == y
    | .bool x, .num y => (if x then (1 : Int) else 0) == y
    | .num x, .bool y => x == (if y then (1 : Int) else 0)
    | .num x, .num y => x == y
    | .str x, .str y => x == y
    | .arr xs, .arr ys =>
      xs.length == ys.length && (xs.zip ys).all (fun p => pyEqFuel fuel p.1 p.2)
    | .obj xs, .obj ys =>
      xs.length == ys.length && xs.all (fun kv =>
        match dictLookup ys kv.1 with
        | some w => pyEqFuel fuel kv.2 w
        | none => false)
    | _, _ => false

mutual

/-- Size of a JSON value, used as recursion fuel for `pyEq`. -/
def jsize : Json → Nat
  | .null => 1
  | .bool _ => 1
  | .num _ => 1
  | .str _ => 1
  | .arr xs => jsizeArr xs + 1
  | .obj kvs => jsizeObj kvs + 1

def jsizeArr : List Json → Nat
  | [] => 1
  | x :: xs => jsize x + jsizeArr xs + 1

def jsizeObj : List (String × Json) → Nat
  | [] => 1
  | kv :: rest => jsize kv.2 + jsizeObj rest + 1

end

/-- Python `==` on JSON-loaded values: each recursion step strictly decreases
the combined structure size, so `jsize a + jsize b` is always enough fuel. -/
def pyEq (a b : Json) : Bool := pyEqFuel (jsize a + jsize b) a b

/-! ## A model of `json.loads` (recursive descent on the fixture subset) -/

def isJsonWs (c : Char) : Bool := c == ' ' || c == '\t' || c == '\n' || c == '\r'

def skipWs : List Char → List Char
  | [] => []
  | c :: rest => if isJsonWs c then skipWs rest else c :: rest

/-- Consume the body of a string literal up to the closing quote
(escape sequences are outside the modeled subset). -/
def takeStr : List Char → Option (List Char × List Char)
  | [] => none
  | c :: rest =>
    if c == '"' then some ([], rest)
    else
      match takeStr rest with
      | some (s, r) => some (c :: s, r)
      | none => none

def takeDigits : List Char → List Char × List Char
  | [] => ([], [])
  | c :: rest =>
    if c.isDigit then
      match takeDigits rest with
      | (ds, r) => (c :: ds, r)
    else ([], c :: rest)

def digitsToNat (ds : List Char) : Nat :=
  ds.foldl (fun n c => n * 10 + (c.toNat - 48)) 0

mutual

def parseVal : Nat → List Char → Option (Json × List Char)
  | 0, _ => none
  | fuel + 1, cs =>
    match skipWs cs with
    | [] => none
    | c :: rest =>
      if c == 'n' then
        match rest with
        | 'u' :: 'l' :: 'l' :: r => some (.null, r)
        | _ => none
      else if c == 't' then
        match rest with
        | 'r' :: 'u' :: 'e' :: r => some (.bool true, r)
        | _ => none
      else if c == 'f' then
        match rest with
        | 'a' :: 'l' :: 's' :: 'e' :: r => some (.bool false, r)
        | _ => none
      else if c == '"' then
        match takeStr rest with
        | some (s, r) => some (.str (String.mk s), r)
        | none => none
      else if c == '-' then
        match takeDigits rest with
        | ([], _) => none
        | (ds, r) => some (.num (-(digitsToNat ds : Int)), r)
      else if c.isDigit then
        match takeDigits (c :: rest) with
        | (ds, r) => some (.num (digitsToNat ds), r)
      else if c == '[' then
        match skipWs rest with
        | ']' :: r => some (.arr [], r)
        | cs2 =>
          match parseItems fuel cs2 with
          | some (items, r) => some (.arr items, r)
          | none => none
      else if c == '{' then
        match skipWs rest with
        | '}' :: r => some (.obj [], r)
        | cs2 =>
          match parseMembers fuel cs2 with
          | some (kvs, r) => some (.obj kvs, r)
          | none => none
      else none

def parseItems : Nat → List Char → Option (List Json × List Char)
  | 0, _ => none
  | fuel + 1, cs =>
    match parseVal fuel cs with
    | none => none
    | some (v, r) =>
      match skipWs r with
      | ',' :: r2 =>
        match parseItems fuel r2 with
        | some (vs, r3) => some (v :: vs, r3)
        | none => none
      | ']' :: r2 => some ([v], r2)
      | _ => none

def parseMembers : Nat → List Char → Option (List (String × Json) × List Char)
  | 0, _ => none
  | fuel + 1, cs =>
    match skipWs cs with
    | '"' :: r =>
      match takeStr r with
      | none => none
      | some (k, r2) =>
        match skipWs r2 with
        | ':' :: r3 =>
          match parseVal fuel r3 with
          | none => none
          | some (v, r4) =>
            match skipWs r4 with
            | ',' :: r5 =>
              match parseMembers fuel r5 with
              | some (kvs, r6) => some ((String.mk k, v) :: kvs, r6)
              | none => none
            | '}' :: r5 => some ([(String.mk k, v)], r5)
            | _ => none
        | _ => none
    | _ => none

end

/-- Model of `json.loads`: parse one value, allow surrounding whitespace,
require the whole text to be consumed. `none` models `json.JSONDecodeError`. -/
def loads (s : String) : Option Json :=
  match parseVal (s.length + 1) s.data with
  | some (v, rest) => if (skipWs rest).isEmpty then some v else none
  | none => none

/-! ## Error taxonomy

`Failed` (src/run.py line 19) is the one exception class of the runner; the
other constructors model the built-in Python exception classes the code can
raise (`assert` in `_locate_test_pairs`, `FileNotFoundError` and
`PermissionError` in `ensure_executable`, `AttributeError` for attribute
access on `None`). -/

/-- Which file a JSON parse failure refers to (the `source` argument of
`load_json`); the source distinction is part of the failure reason. -/
inductive JsonSource where
  | testCaseInput : JsonSource
  | decodersOutput : JsonSource
deriving DecidableEq

/-- The `reason`/`cause`/`diff` payload carried by a raised `Failed`. -/
inductive FailReason where
  | couldNotRun (program : String) : FailReason
  | nonZeroExit (code : Int) : FailReason
  | stderrOutput (stderr : String) : FailReason
  | shouldHaveRejected : FailReason
  | couldNotParse (source : JsonSource) : FailReason
  | mismatch (correct got : Json) : FailReason

inductive PyError where
  | failed (r : FailReason) : PyError
  | assertionError (msg : String) : PyError
  | fileNotFoundError (msg : String) : PyError
  | permissionError (msg : String) : PyError
  | attributeError (msg : String) : PyError

/-- The `except Failed` category: exactly the errors `run_with_reporting`
catches per case. -/
def PyError.isFailed : PyError → Bool
  | .failed _ => true
  | _ => false

/-! ## Filesystem model and fixture location -/

/-- The category directory a fixture file sits in (its `parent.name`). -/
inductive Category where
  | invalid : Category
  | valid : Category
deriving DecidableEq

def Category.dirName : Category → String
  | .invalid => "invalid"
  | .valid => "valid"

/-- A fixture file path: its category directory, its base name without
extension (`Path.stem`) and its extension. -/
structure FsPath where
  category : Category
  stem : String
  ext : String
deriving DecidableEq

def tomlExt : String := ".toml"
def jsonExt : String := ".json"

/-- One fixture pair yielded by the locator: format-file side, then
structured-data side, either possibly absent (`None`). -/
abbrev TestPair := Option FsPath × Option FsPath

/-- The directory tree under `tests/<version>/`: the stems of the files
matched by each of the four globs of `_locate_test_pairs`, plus which
`.json` files exist under `valid/` (for the `assert`). -/
structure TestsDir where
  invalidToml : List String
  invalidJson : List String
  validToml : List String
  validJson : List String

/-- The `valid/*.toml` loop of `_locate_test_pairs`: pair each valid format
file with its same-stem structured-data counterpart, and fail the `assert`
(an `AssertionError`, not a `Failed`) when the counterpart does not exist. -/
def locateValidPairs (validJson : List String) : List String → Except PyError (List TestPair)
  | [] => .ok []
  | s :: rest =>
    if validJson.contains s then
      match locateValidPairs validJson rest with
      | .ok tail =>
        .ok ((some ⟨Category.valid, s, tomlExt⟩, some ⟨Category.valid, s, jsonExt⟩) :: tail)
      | .error e => .error e
    else .error (.assertionError ("Missing: " ++ s))

/-- Model of `_locate_test_pairs`: invalid format-only pairs, then invalid
structured-data-only pairs, then the valid matched pairs. -/
def locate_test_pairs (d : TestsDir) : Except PyError (List TestPair) :=
  match locateValidPairs d.validJson d.validToml with
  | .error e => .error e
  | .ok part3 =>
    .ok (d.invalidToml.map (fun s => ((some ⟨Category.invalid, s, tomlExt⟩ : Option FsPath), (none : Option FsPath))) ++
         d.invalidJson.map (fun s => ((none : Option FsPath), (some ⟨Category.invalid, s, jsonExt⟩ : Option FsPath))) ++
         part3)

/-! ## Marker filter -/

def listStartsWith : List Char → List Char → Bool
  | [], _ => true
  | _ :: _, [] => false
  | x :: xs, y :: ys => x == y && listStartsWith xs ys

def listOccursIn : List Char → List Char → Bool
  | needle, [] => needle.isEmpty
  | needle, c :: rest => listStartsWith needle (c :: rest) || listOccursIn needle rest

/-- Python substring containment `m in s`. -/
def py_in (m s : String) : Bool := listOccursIn m.data s.data

/-- The `marker_filter` predicate: with markers present it evaluates
`pair[0].stem`, which raises `AttributeError` when the format side of the
pair is `None`. -/
def marker_filter (markers : List String) (pair : TestPair) : Except PyError Bool :=
  if markers.isEmpty then .ok true
  else
    match pair.1 with
    | none => .error (.attributeError "NoneType object has no attribute stem")
    | some p => .ok (markers.any (fun m => py_in m p.stem || m == p.category.dirName))

/-- Model of `_filter_based_on_markers`, with the predicate evaluated left to right
as the lazy `filter` is consumed. -/
def filter_based_on_markers : List TestPair → List String → Except PyError (List TestPair)
  | [], _ => .ok []
  | pair :: rest, markers =>
    match marker_filter markers pair with
    | .error e => .error e
    | .ok keep =>
      match filter_based_on_markers rest markers with
      | .error e => .error e
      | .ok tail => .ok (if keep then pair :: tail else tail)

/-- Model of `get_test_pairs`: locate, then filter. -/
def get_test_pairs (d : TestsDir) (markers : List String) : Except PyError (List TestPair) :=
  match locate_test_pairs d with
  | .error e => .error e
  | .ok pairs => filter_based_on_markers pairs markers

/-! ## Process harness -/

/-- The observable result of one completed `subprocess.run`. -/
structure ProcResult where
  returncode : Int
  stdout : String
  stderr : String
deriving DecidableEq

/-- Either `subprocess.run` raised `OSError` at launch, or the process ran
to completion with the given captured result. -/
inductive LaunchOutcome where
  | osError (msg : String) : LaunchOutcome
  | ran (result : ProcResult) : LaunchOutcome

/-- An external program: its path string, its filesystem status as seen by
`os.path.isfile` and `os.access(X_OK)`, and its behavior as a function from
standard-input contents to the launch outcome. -/
structure Program where
  path : String
  isFile : Bool
  isExecutable : Bool
  run : String → LaunchOutcome

/-- Model of `ensure_executable`: missing file and non-executable file raise distinct
built-in exceptions, neither of which is a `Failed`. -/
def ensure_executable (p : Program) : Except PyError Unit :=
  if !p.isFile then .error (.fileNotFoundError ("Could not find file: " ++ p.path))
  else if !p.isExecutable then .error (.permissionError ("Not an executable file: " ++ p.path))
  else .ok ()

/-- Model of `run_program`: launch failure becomes a `Failed`; with `clean_exit` the
exit status is checked first and stderr second (each raising on its own);
without it a zero exit status raises. Python truthiness `if process.returncode:`
is rendered as the else branch of `returncode == 0`. -/
def run_program (program : Program) (stdin : String) (clean_exit : Bool) : Except PyError String :=
  match program.run stdin with
  | .osError _ => .error (.failed (.couldNotRun program.path))
  | .ran p =>
    if clean_exit then
      if p.returncode == 0 then
        if p.stderr == "" then .ok p.stdout
        else .error (.failed (.stderrOutput p.stderr))
      else .error (.failed (.nonZeroExit p.returncode))
    else
      if p.returncode == 0 then .error (.failed .shouldHaveRejected)
      else .ok p.stdout

/-- Model of `load_json`: a parse failure is a `Failed` whose reason names the source. -/
def load_json (content : String) (source : JsonSource) : Except PyError Json :=
  match loads content with
  | some v => .ok v
  | none => .error (.failed (.couldNotParse source))

/-- Model of `json_file.read_text()` where `json_file : Optional[Path]`: attribute
access on `None` raises `AttributeError`. -/
def read_text : Option String → Except PyError String
  | some t => .ok t
  | none => .error (.attributeError "NoneType object has no attribute read_text")

/-! ## Compliance checks -/

/-- Model of `test_decoder`: run the decoder on the format bytes, then unconditionally
read and parse the structured-data file and the decoder output and compare.
There is no early return for an absent `json_file`. -/
def test_decoder (toml_bytes : String) (json_file : Option String) (clean_exit : Bool)
    (decoder : Program) : Except PyError Unit :=
  match run_program decoder toml_bytes clean_exit with
  | .error e => .error e
  | .ok content =>
    match read_text json_file with
    | .error e => .error e
    | .ok jtext =>
      match load_json jtext JsonSource.testCaseInput with
      | .error e => .error e
      | .ok correct_json =>
        match load_json content JsonSource.decodersOutput with
        | .error e => .error e
        | .ok decoded_json =>
          if pyEq correct_json decoded_json then .ok ()
          else .error (.failed (.mismatch correct_json decoded_json))

/-- Model of `test_encoder`: parse the structured-data file, run the encoder on it,
then unconditionally feed the encoder output to the trusted decoder with
`clean_exit=True` and compare the round trip. There is no early return for
the rejection case. -/
def test_encoder (json_text : String) (clean_exit : Bool)
    (encoder decoder : Program) : Except PyError Unit :=
  match load_json json_text JsonSource.testCaseInput with
  | .error e => .error e
  | .ok input_json =>
    match run_program encoder json_text clean_exit with
    | .error e => .error e
    | .ok result =>
      match run_program decoder result true with
      | .error e => .error e
      | .ok decoded =>
        match load_json decoded JsonSource.decodersOutput with
        | .error e => .error e
        | .ok round_trip_json =>
          if pyEq input_json round_trip_json then .ok ()
          else .error (.failed (.mismatch input_json round_trip_json))

/-! ## Reporting aggregator -/

structure Counts where
  fail : Nat
  pass : Nat
deriving DecidableEq

/-- The case loop of `run_with_reporting`: each check outcome is counted;
only a raised `Failed` is caught, any other exception propagates. -/
def runCases : List (Except PyError Unit) → Counts → Except PyError Counts
  | [], counts => .ok counts
  | check :: rest, counts =>
    match check with
    | .ok _ => runCases rest { counts with pass := counts.pass + 1 }
    | .error (.failed _) => runCases rest { counts with fail := counts.fail + 1 }
    | .error e => .error e

/-- Model of `run_with_reporting`, reduced to its exit-code contract: exit code 1 when
any case failed or no case ran, else 0. -/
def run_with_reporting (checks : List (Except PyError Unit)) : Except PyError Nat :=
  match runCases checks { fail := 0, pass := 0 } with
  | .error e => .error e
  | .ok counts =>
    if counts.fail != 0 || counts.fail + counts.pass == 0 then .ok 1 else .ok 0

/-! ## Compliance runners -/

/-- The keyword arguments `decoder_compliance.generate_parameters` builds for
one selected pair (the `decoder` entry itself is the fixed target program). -/
structure DecParam where
  toml_file : FsPath
  clean_exit : Bool
  json_file : Option FsPath
deriving DecidableEq

/-- The keyword arguments `encoder_compliance.generate_parameters` builds for
one selected pair. -/
structure EncParam where
  json_file : FsPath
  clean_exit : Bool
deriving DecidableEq

/-- Model of `decoder_compliance.generate_parameters`: skip pairs with nothing to
decode; `clean_exit` is `toml_file is not None` on the remaining pair. -/
def decoderParams (pairs : List TestPair) : List DecParam :=
  pairs.filterMap (fun pr =>
    match pr.1 with
    | none => none
    | some tp => some ⟨tp, pr.2.isSome, pr.2⟩)

/-- Model of `encoder_compliance.generate_parameters`: skip pairs with nothing to
encode; `clean_exit` is `toml_file is not None`. -/
def encoderParams (pairs : List TestPair) : List EncParam :=
  pairs.filterMap (fun pr =>
    match pr.2 with
    | none => none
    | some jp => some ⟨jp, pr.1.isSome⟩)

/-- Model of `decoder_compliance`: check the target eagerly, then run the checks over
the located and filtered pairs. `readToml`/`readJson` give the contents of
the fixture files on disk. -/
def decoder_compliance (decoder : Program) (d : TestsDir) (markers : List String)
    (readToml readJson : FsPath → String) : Except PyError Nat :=
  match ensure_executable decoder with
  | .error e => .error e
  | .ok _ =>
    match get_test_pairs d markers with
    | .error e => .error e
    | .ok selected =>
      run_with_reporting ((decoderParams selected).map (fun p =>
        test_decoder (readToml p.toml_file) (Option.map readJson p.json_file) p.clean_exit decoder))

/-- Model of `encoder_compliance`: check both targets eagerly, then run the checks. -/
def encoder_compliance (encoder decoder : Program) (d : TestsDir) (markers : List String)
    (readJson : FsPath → String) : Except PyError Nat :=
  match ensure_executable encoder with
  | .error e => .error e
  | .ok _ =>
    match ensure_executable decoder with
    | .error e => .error e
    | .ok _ =>
      match get_test_pairs d markers with
      | .error e => .error e
      | .ok selected =>
        run_with_reporting ((encoderParams selected).map (fun q =>
          test_encoder (readJson q.json_file) q.clean_exit encoder decoder))

/-! ## Claim C1 -/

/-- C1: the claim says that on a pure-invalid decoder fixture (no
structured-data reference) whose decoder correctly exits non-zero, the check
completes successfully with no parsing. The code instead falls through to
`json_file.read_text()` with `json_file = None` and crashes with an
`AttributeError` (which, not being a `Failed`, aborts the whole run): here the
decoder is a correctly rejecting program (exit status 1, no output), the
fixture pair has no structured-data side, and `test_decoder` evaluates to the
`AttributeError` instead of a passing check. -/
theorem c1_pure_invalid_case_crashes :
    test_decoder "junk" none false ⟨"dec", true, true, fun _ => .ran ⟨1, "", ""⟩⟩
      = .error (.attributeError "NoneType object has no attribute read_text") := rfl

/-! ## Claim C2 -/

/-- C2: the claim says that when the encoder is expected to reject and does
exit non-zero, the check stops after the rejection assertion, without invoking
the trusted decoder. The code instead goes on to feed the encoder output to
the trusted decoder: here the encoder correctly rejects (exit status 1) and
the decoder stub fails at launch, and `test_encoder` surfaces the failure of
that decoder invocation, proving the decoder was invoked after the rejection
assertion had already succeeded. -/
theorem c2_rejection_still_runs_decoder :
    test_encoder "1" false ⟨"enc", true, true, fun _ => .ran ⟨1, "", ""⟩⟩
        ⟨"dec", true, true, fun _ => .osError "boom"⟩
      = .error (.failed (.couldNotRun "dec")) := rfl

/-! ## Claim C4 -/

/-- C4: the claim says the marker filter handles pairs whose format-file side
is absent, matching the marker against the category-directory name, and never
raises. The code evaluates `pair[0].stem` before anything else whenever the
marker set is non-empty, so a pair with absent format side (every
invalid-structured-data fixture) raises `AttributeError` — even for the
marker "invalid" which the claim says should select this very pair. -/
theorem c4_marker_filter_crashes_on_absent_format_side :
    filter_based_on_markers [(none, some ⟨Category.invalid, "bad", jsonExt⟩)] ["invalid"]
      = .error (.attributeError "NoneType object has no attribute stem") := rfl

/-! ## Claim C3 -/

/-- C3 counterexample: a run with non-zero exit status AND non-empty standard
error, under `expect_clean = true`, raises only the non-zero-exit `Failed`;
the result is exactly that single failure (a distinct value from the stderr
failure), so both failures are not reported as the claim states. -/
theorem c3_counterexample :
    run_program ⟨"prog", true, true, fun _ => .ran ⟨1, "", "err"⟩⟩ "" true
        = .error (.failed (.nonZeroExit 1)) ∧
      (Except.error (α := String) (PyError.failed (.nonZeroExit 1))
        ≠ Except.error (PyError.failed (.stderrOutput "err"))) := by
  refine ⟨rfl, ?_⟩
  intro h
  simp at h

/-- C3 (amended): with `expect_clean` true the harness checks the exit status
first and raises `Failed` with the non-zero-exit reason, never reaching the
stderr check; only when the exit status is zero does a non-empty stderr raise
the stderr `Failed`. At most one of the two failures is reported, the
non-zero-exit one taking precedence. -/
theorem c3_first_failure_only (program : Program) (stdin : String) (r : ProcResult)
    (h : program.run stdin = .ran r) :
    (r.returncode ≠ 0 →
      run_program program stdin true = .error (.failed (.nonZeroExit r.returncode))) ∧
    (r.returncode = 0 → r.stderr ≠ "" →
      run_program program stdin true = .error (.failed (.stderrOutput r.stderr))) := by
  constructor
  · intro hr
    have hb : (r.returncode == 0) = false := by simp [hr]
    simp [run_program, h, hb]
  · intro hr hs
    have hb : (r.stderr == "") = false := by simp [hs]
    simp [run_program, h, hr, hb]

/-- C3 witness: the amended theorem applied to two concrete runs, one with
non-zero exit status and non-empty stderr (only the exit failure reported),
one with zero exit status and non-empty stderr (the stderr failure reported). -/
theorem c3_witness :
    run_program ⟨"prog", true, true, fun _ => .ran ⟨1, "", "err"⟩⟩ "" true
        = .error (.failed (.nonZeroExit 1)) ∧
      run_program ⟨"prog", true, true, fun _ => .ran ⟨0, "", "err"⟩⟩ "" true
        = .error (.failed (.stderrOutput "err")) :=
  ⟨(c3_first_failure_only ⟨"prog", true, true, fun _ => .ran ⟨1, "", "err"⟩⟩ "" ⟨1, "", "err"⟩ rfl).1
      (by decide),
   (c3_first_failure_only ⟨"prog", true, true, fun _ => .ran ⟨0, "", "err"⟩⟩ "" ⟨0, "", "err"⟩ rfl).2
      rfl (by decide)⟩

/-! ## Aggregator lemmas (shared by C5 and C6) -/

/-- A check outcome the aggregator counts as a pass. -/
def isPassOutcome : Except PyError Unit → Bool
  | .ok _ => true
  | .error _ => false

/-- Every outcome in the list is either a pass or a raised `Failed` — the two
shapes the per-case loop handles without propagating. -/
def CaughtOnly (checks : List (Except PyError Unit)) : Prop :=
  ∀ o ∈ checks, o = Except.ok () ∨ ∃ r, o = Except.error (PyError.failed r)

def nFail (checks : List (Except PyError Unit)) : Nat :=
  (checks.filter (fun o => !isPassOutcome o)).length

def nPass (checks : List (Except PyError Unit)) : Nat :=
  (checks.filter (fun o => isPassOutcome o)).length

theorem caughtOnly_nil : CaughtOnly [] := by
  intro o ho
  exact absurd ho (List.not_mem_nil o)

theorem caughtOnly_cons (o : Except PyError Unit) (rest : List (Except PyError Unit))
    (h1 : o = Except.ok () ∨ ∃ r, o = Except.error (PyError.failed r))
    (h2 : CaughtOnly rest) : CaughtOnly (o :: rest) := by
  intro x hx
  rcases List.mem_cons.mp hx with rfl | hx2
  · exact h1
  · exact h2 x hx2

theorem nFail_cons_ok (rest : List (Except PyError Unit)) :
    nFail (Except.ok () :: rest) = nFail rest := by
  simp [nFail, List.filter_cons, isPassOutcome]

theorem nPass_cons_ok (rest : List (Except PyError Unit)) :
    nPass (Except.ok () :: rest) = nPass rest + 1 := by
  simp [nPass, List.filter_cons, isPassOutcome]

theorem nFail_cons_error (e : PyError) (rest : List (Except PyError Unit)) :
    nFail (Except.error e :: rest) = nFail rest + 1 := by
  simp [nFail, List.filter_cons, isPassOutcome]

theorem nPass_cons_error (e : PyError) (rest : List (Except PyError Unit)) :
    nPass (Except.error e :: rest) = nPass rest := by
  simp [nPass, List.filter_cons, isPassOutcome]

theorem runCases_caught : ∀ (checks : List (Except PyError Unit)) (c : Counts),
    CaughtOnly checks →
    runCases checks c = .ok ⟨c.fail + nFail checks, c.pass + nPass checks⟩ := by
  intro checks
  induction checks with
  | nil => intro c _; simp [runCases, nFail, nPass]
  | cons o rest ih =>
    intro c h
    have ho := h o (List.mem_cons_self o rest)
    have hrest : CaughtOnly rest := fun x hx => h x (List.mem_cons_of_mem o hx)
    rcases ho with hok | ⟨r, herr⟩
    · subst hok
      rw [show runCases (Except.ok () :: rest) c
            = runCases rest { c with pass := c.pass + 1 } from rfl]
      rw [ih _ hrest, nFail_cons_ok, nPass_cons_ok]
      have h2 : c.pass + 1 + nPass rest = c.pass + (nPass rest + 1) := by omega
      show Except.ok (⟨c.fail + nFail rest, c.pass + 1 + nPass rest⟩ : Counts)
          = Except.ok (⟨c.fail + nFail rest, c.pass + (nPass rest + 1)⟩ : Counts)
      rw [h2]
    · subst herr
      rw [show runCases (Except.error (PyError.failed r) :: rest) c
            = runCases rest { c with fail := c.fail + 1 } from rfl]
      rw [ih _ hrest, nFail_cons_error, nPass_cons_error]
      have h2 : c.fail + 1 + nFail rest = c.fail + (nFail rest + 1) := by omega
      show Except.ok (⟨c.fail + 1 + nFail rest, c.pass + nPass rest⟩ : Counts)
          = Except.ok (⟨c.fail + (nFail rest + 1), c.pass + nPass rest⟩ : Counts)
      rw [h2]

/-- The aggregator on a sequence of caught-only outcomes: its exit code is
decided by the two counters. -/
theorem run_with_reporting_caught (checks : List (Except PyError Unit)) (h : CaughtOnly checks) :
    run_with_reporting checks
      = (if nFail checks != 0 || nFail checks + nPass checks == 0 then .ok 1 else .ok 0) := by
  have h0 : run_with_reporting checks
      = (if (0 + nFail checks) != 0 || (0 + nFail checks) + (0 + nPass checks) == 0
         then .ok 1 else .ok 0) := by
    unfold run_with_reporting
    rw [runCases_caught checks _ h]
  rw [h0]
  simp only [Nat.zero_add]

theorem runCases_propagates : ∀ (pre : List (Except PyError Unit)) (rest : List (Except PyError Unit))
    (e : PyError) (c : Counts), CaughtOnly pre → e.isFailed = false →
    runCases (pre ++ Except.error e :: rest) c = .error e := by
  intro pre
  induction pre with
  | nil =>
    intro rest e c _ he
    cases e <;> simp_all [runCases, PyError.isFailed]
  | cons o pre ih =>
    intro rest e c h he
    have ho := h o (List.mem_cons_self o pre)
    have hpre : CaughtOnly pre := fun x hx => h x (List.mem_cons_of_mem o hx)
    rcases ho with hok | ⟨r, herr⟩
    · subst hok
      rw [show runCases ((Except.ok () :: pre) ++ Except.error e :: rest) c
            = runCases (pre ++ Except.error e :: rest) { c with pass := c.pass + 1 } from rfl]
      exact ih rest e _ hpre he
    · subst herr
      rw [show runCases ((Except.error (PyError.failed r) :: pre) ++ Except.error e :: rest) c
            = runCases (pre ++ Except.error e :: rest) { c with fail := c.fail + 1 } from rfl]
      exact ih rest e _ hpre he

/-! ## Claim C5 -/

/-- C5: the aggregator exit code is 1 exactly when some check failed or zero
checks ran, and 0 when at least one check ran and all passed. Stated for any
sequence of checks whose outcomes the per-case loop handles (passes or raised
`Failed` errors). -/
theorem c5_exit_code (checks : List (Except PyError Unit)) (h : CaughtOnly checks) :
    ((∃ o ∈ checks, o ≠ Except.ok ()) ∨ checks = [] →
       run_with_reporting checks = .ok 1) ∧
    ((∀ o ∈ checks, o = Except.ok ()) ∧ checks ≠ [] →
       run_with_reporting checks = .ok 0) := by
  have hrw := run_with_reporting_caught checks h
  constructor
  · rintro (⟨o, homem, hone⟩ | hnil)
    · have hfail : isPassOutcome o = false := by
        rcases h o homem with hok | ⟨r, herr⟩
        · exact absurd hok hone
        · subst herr; rfl
      have : o ∈ checks.filter (fun o => !isPassOutcome o) :=
        List.mem_filter.mpr ⟨homem, by simp [hfail]⟩
      have hn : nFail checks ≠ 0 := by
        unfold nFail
        intro hlen
        rw [List.length_eq_zero] at hlen
        rw [hlen] at this
        exact absurd this (List.not_mem_nil o)
      rw [hrw]
      simp [hn]
    · subst hnil
      rw [hrw]
      simp [nFail, nPass]
  · rintro ⟨hall, hne⟩
    have h0 : nFail checks = 0 := by
      unfold nFail
      rw [List.length_eq_zero, List.filter_eq_nil_iff]
      intro o ho
      rw [hall o ho]
      simp [isPassOutcome]
    have h1 : nPass checks = checks.length := by
      unfold nPass
      rw [List.filter_length_eq_length]
      intro o ho
      rw [hall o ho]
      rfl
    have h2 : checks.length ≠ 0 := fun hl => hne (List.length_eq_zero.mp hl)
    rw [hrw, h0, h1]
    simp [h2]

/-- C5 witness: a sequence with one failure yields exit code 1, the empty
selection yields exit code 1, and a single passing check yields exit code 0. -/
theorem c5_witness :
    run_with_reporting [Except.ok (), Except.error (PyError.failed .shouldHaveRejected)] = .ok 1 ∧
      run_with_reporting [] = .ok 1 ∧
      run_with_reporting [Except.ok ()] = .ok 0 :=
  ⟨(c5_exit_code [Except.ok (), Except.error (PyError.failed .shouldHaveRejected)]
      (caughtOnly_cons _ _ (Or.inl rfl)
        (caughtOnly_cons _ _ (Or.inr ⟨.shouldHaveRejected, rfl⟩) caughtOnly_nil))).1
      (Or.inl ⟨Except.error (PyError.failed .shouldHaveRejected), by simp, by simp⟩),
   (c5_exit_code [] caughtOnly_nil).1 (Or.inr rfl),
   (c5_exit_code [Except.ok ()]
      (caughtOnly_cons _ _ (Or.inl rfl) caughtOnly_nil)).2
      ⟨by intro o ho
          rcases List.mem_cons.mp ho with rfl | ho2
          · rfl
          · exact absurd ho2 (List.not_mem_nil o),
       by simp⟩⟩

/-! ## Claim C6 -/

/-- C6: the per-case loop catches exactly the `Failed` category: a sequence of
passes and raised `Failed` errors always completes with an exit code, while
the first outcome raising anything outside the `Failed` category propagates
out of the aggregator as that very error, terminating the run. -/
theorem c6_catches_only_failed :
    (∀ (pre rest : List (Except PyError Unit)) (e : PyError),
       CaughtOnly pre → e.isFailed = false →
       run_with_reporting (pre ++ Except.error e :: rest) = .error e) ∧
    (∀ checks : List (Except PyError Unit),
       CaughtOnly checks → ∃ n, run_with_reporting checks = .ok n) := by
  constructor
  · intro pre rest e hpre he
    unfold run_with_reporting
    rw [runCases_propagates pre rest e _ hpre he]
  · intro checks h
    rw [run_with_reporting_caught checks h]
    by_cases hc : (nFail checks != 0 || nFail checks + nPass checks == 0) = true
    · exact ⟨1, by simp [hc]⟩
    · exact ⟨0, by simp [hc]⟩

/-- C6 witness: a run whose second case raises an `AssertionError` (outside
the `Failed` category) terminates with that error even though the first case
passed, while a run of one pass and one raised `Failed` completes. -/
theorem c6_witness :
    run_with_reporting [Except.ok (), Except.error (PyError.assertionError "boom")]
        = .error (PyError.assertionError "boom") ∧
      ∃ n, run_with_reporting [Except.ok (), Except.error (PyError.failed .shouldHaveRejected)]
        = .ok n :=
  ⟨c6_catches_only_failed.1 [Except.ok ()] [] (PyError.assertionError "boom")
      (caughtOnly_cons _ _ (Or.inl rfl) caughtOnly_nil) rfl,
   c6_catches_only_failed.2 [Except.ok (), Except.error (PyError.failed .shouldHaveRejected)]
      (caughtOnly_cons _ _ (Or.inl rfl)
        (caughtOnly_cons _ _ (Or.inr ⟨.shouldHaveRejected, rfl⟩) caughtOnly_nil))⟩

/-! ## Claim C7 -/

/-- The locator outcome is an `AssertionError` (the failed `assert` on the
missing structured-data counterpart). -/
def isAssertionFailure : Except PyError (List TestPair) → Bool
  | .error (.assertionError _) => true
  | _ => false

theorem locateValidPairs_cons_true (vj : List String) (a : String) (rest : List String)
    (h : vj.contains a = true) :
    locateValidPairs vj (a :: rest)
      = match locateValidPairs vj rest with
        | .ok tail =>
          .ok ((some ⟨Category.valid, a, tomlExt⟩, some ⟨Category.valid, a, jsonExt⟩) :: tail)
        | .error e => .error e := by
  rw [show locateValidPairs vj (a :: rest)
      = if vj.contains a then
          (match locateValidPairs vj rest with
           | .ok tail =>
             .ok ((some ⟨Category.valid, a, tomlExt⟩, some ⟨Category.valid, a, jsonExt⟩) :: tail)
           | .error e => .error e)
        else .error (.assertionError ("Missing: " ++ a)) from rfl, if_pos h]

theorem locateValidPairs_cons_false (vj : List String) (a : String) (rest : List String)
    (h : vj.contains a = false) :
    locateValidPairs vj (a :: rest) = .error (.assertionError ("Missing: " ++ a)) := by
  rw [show locateValidPairs vj (a :: rest)
      = if vj.contains a then
          (match locateValidPairs vj rest with
           | .ok tail =>
             .ok ((some ⟨Category.valid, a, tomlExt⟩, some ⟨Category.valid, a, jsonExt⟩) :: tail)
           | .error e => .error e)
        else .error (.assertionError ("Missing: " ++ a)) from rfl,
    if_neg (by rw [h]; exact Bool.noConfusion)]

theorem locateValidPairs_missing : ∀ (l : List String) (vj : List String) (s : String),
    s ∈ l → vj.contains s = false →
    ∃ msg, locateValidPairs vj l = .error (.assertionError msg) := by
  intro l
  induction l with
  | nil => intro vj s hs _; exact absurd hs (List.not_mem_nil s)
  | cons a rest ih =>
    intro vj s hs hc
    by_cases ha : vj.contains a = true
    · rcases List.mem_cons.mp hs with rfl | hmem
      · rw [ha] at hc
        exact Bool.noConfusion hc
      · obtain ⟨msg, hmsg⟩ := ih vj s hmem hc
        exact ⟨msg, by rw [locateValidPairs_cons_true vj a rest ha, hmsg]⟩
    · have ha2 : vj.contains a = false := by
        cases h2 : vj.contains a
        · rfl
        · exact absurd h2 ha
      exact ⟨"Missing: " ++ a, locateValidPairs_cons_false vj a rest ha2⟩

/-- C7: when a valid-category format file has no same-stem structured-data
counterpart on disk, the locator fails with an `AssertionError`: a
precondition error outside the per-case `Failed` category, which therefore
propagates through the aggregator and aborts the whole decoder compliance
run with that very error instead of being counted as a test failure. -/
theorem c7_missing_counterpart_fatal (d : TestsDir) (s : String)
    (h1 : s ∈ d.validToml) (h2 : d.validJson.contains s = false) :
    isAssertionFailure (locate_test_pairs d) = true ∧
    (∀ e, locate_test_pairs d = .error e → e.isFailed = false) ∧
    (∀ e (decoder : Program) (markers : List String) (readToml readJson : FsPath → String),
       locate_test_pairs d = .error e → ensure_executable decoder = .ok () →
       decoder_compliance decoder d markers readToml readJson = .error e) := by
  obtain ⟨msg, hmsg⟩ := locateValidPairs_missing d.validToml d.validJson s h1 h2
  have hloc : locate_test_pairs d = .error (.assertionError msg) := by
    simp [locate_test_pairs, hmsg]
  refine ⟨by rw [hloc]; rfl, ?_, ?_⟩
  · intro e he
    rw [hloc] at he
    cases he
    rfl
  · intro e decoder markers readToml readJson he hens
    rw [hloc] at he
    cases he
    simp [decoder_compliance, hens, get_test_pairs, hloc]

/-- C7 witness: a corpus whose `valid/` directory holds `a.toml` but no
`a.json`: the locator fails with the assertion error, that error is not a
`Failed`, and the decoder compliance run on a launchable target aborts with
it. -/
theorem c7_witness :
    isAssertionFailure (locate_test_pairs ⟨[], [], ["a"], []⟩) = true ∧
      PyError.isFailed (.assertionError ("Missing: " ++ "a")) = false ∧
      decoder_compliance ⟨"dec", true, true, fun _ => .osError ""⟩ ⟨[], [], ["a"], []⟩
          [] (fun _ => "") (fun _ => "")
        = .error (.assertionError ("Missing: " ++ "a")) :=
  ⟨(c7_missing_counterpart_fatal ⟨[], [], ["a"], []⟩ "a" (List.mem_cons_self "a" []) rfl).1,
   (c7_missing_counterpart_fatal ⟨[], [], ["a"], []⟩ "a" (List.mem_cons_self "a" []) rfl).2.1
     (.assertionError ("Missing: " ++ "a")) rfl,
   (c7_missing_counterpart_fatal ⟨[], [], ["a"], []⟩ "a" (List.mem_cons_self "a" []) rfl).2.2
     (.assertionError ("Missing: " ++ "a")) ⟨"dec", true, true, fun _ => .osError ""⟩
     [] (fun _ => "") (fun _ => "") rfl rfl⟩

/-! ## Claim C8 -/

/-- C8: the launchability precondition of a target program is decided by
`ensure_executable`, which distinguishes a missing file
(`FileNotFoundError`) from a present but non-executable file
(`PermissionError`); neither error is of the per-case `Failed` category, and
both compliance runners surface the error as their own outcome regardless of
the fixtures, markers or program behaviors — no test case is invoked. -/
theorem c8_launchability_checked_eagerly (p : Program) :
    (p.isFile = false →
       ensure_executable p = .error (.fileNotFoundError ("Could not find file: " ++ p.path))) ∧
    (p.isFile = true → p.isExecutable = false →
       ensure_executable p = .error (.permissionError ("Not an executable file: " ++ p.path))) ∧
    (∀ e, ensure_executable p = .error e → e.isFailed = false) ∧
    (∀ e (d : TestsDir) (markers : List String) (readToml readJson : FsPath → String),
       ensure_executable p = .error e →
       decoder_compliance p d markers readToml readJson = .error e) ∧
    (∀ e (dec : Program) (d : TestsDir) (markers : List String) (readJson : FsPath → String),
       ensure_executable p = .error e →
       encoder_compliance p dec d markers readJson = .error e) := by
  refine ⟨?_, ?_, ?_, ?_, ?_⟩
  · intro h
    simp [ensure_executable, h]
  · intro h1 h2
    simp [ensure_executable, h1, h2]
  · intro e he
    by_cases h1 : p.isFile = true
    · by_cases h2 : p.isExecutable = true
      · simp [ensure_executable, h1, h2] at he
      · simp only [Bool.not_eq_true] at h2
        simp [ensure_executable, h1, h2] at he
        subst he
        rfl
    · simp only [Bool.not_eq_true] at h1
      simp [ensure_executable, h1] at he
      subst he
      rfl
  · intro e d markers readToml readJson he
    simp [decoder_compliance, he]
  · intro e dec d markers readJson he
    simp [encoder_compliance, he]

/-- C8 witness: a missing target and a present but non-executable target
yield the two distinct precondition errors, and the decoder compliance run
on the missing target aborts with that error before any invocation. -/
theorem c8_witness :
    ensure_executable ⟨"enc", false, true, fun _ => .osError ""⟩
        = .error (.fileNotFoundError ("Could not find file: " ++ "enc")) ∧
      ensure_executable ⟨"enc", true, false, fun _ => .osError ""⟩
        = .error (.permissionError ("Not an executable file: " ++ "enc")) ∧
      decoder_compliance ⟨"enc", false, true, fun _ => .osError ""⟩ ⟨[], [], [], []⟩
          [] (fun _ => "") (fun _ => "")
        = .error (.fileNotFoundError ("Could not find file: " ++ "enc")) :=
  ⟨(c8_launchability_checked_eagerly ⟨"enc", false, true, fun _ => .osError ""⟩).1 rfl,
   (c8_launchability_checked_eagerly ⟨"enc", true, false, fun _ => .osError ""⟩).2.1 rfl rfl,
   (c8_launchability_checked_eagerly ⟨"enc", false, true, fun _ => .osError ""⟩).2.2.2.1
     (.fileNotFoundError ("Could not find file: " ++ "enc")) ⟨[], [], [], []⟩
     [] (fun _ => "") (fun _ => "") rfl⟩

/-! ## Claim C9 -/

/-- C9: the checkers compare parsed values, not texts: whenever the expected
text and the produced text parse to values that are equal under Python `==`
(in particular differing only in object key order or in whitespace), the
decode check and the encode round-trip check succeed. -/
theorem c9_comparison_on_parsed_values (t1 t2 : String) (v1 v2 : Json)
    (h1 : loads t1 = some v1) (h2 : loads t2 = some v2) (h3 : pyEq v1 v2 = true) :
    (∀ (toml_bytes : String) (decoder : Program),
       decoder.run toml_bytes = .ran ⟨0, t2, ""⟩ →
       test_decoder toml_bytes (some t1) true decoder = .ok ()) ∧
    (∀ (encoder decoder : Program) (encOut : String),
       encoder.run t1 = .ran ⟨0, encOut, ""⟩ →
       decoder.run encOut = .ran ⟨0, t2, ""⟩ →
       test_encoder t1 true encoder decoder = .ok ()) := by
  constructor
  · intro toml_bytes decoder hdec
    have hrp : run_program decoder toml_bytes true = .ok t2 := by
      unfold run_program
      rw [hdec]
      rfl
    simp [test_decoder, hrp, read_text, load_json, h1, h2, h3]
  · intro encoder decoder encOut henc hdec2
    have hrp1 : run_program encoder t1 true = .ok encOut := by
      unfold run_program
      rw [henc]
      rfl
    have hrp2 : run_program decoder encOut true = .ok t2 := by
      unfold run_program
      rw [hdec2]
      rfl
    simp [test_encoder, load_json, h1, hrp1, hrp2, h2, h3]

def c9t1 : String := "\x7b\"a\": \"b\", \"c\": 1\x7d"
def c9t2 : String := " \x7b \"c\" : 1 , \"a\" : \"b\" \x7d "
def c9v1 : Json := Json.obj [("a", Json.str "b"), ("c", Json.num 1)]
def c9v2 : Json := Json.obj [("c", Json.num 1), ("a", Json.str "b")]
def c9decoder : Program := ⟨"dec", true, true, fun _ => .ran ⟨0, c9t2, ""⟩⟩

/-- C9 witness: two object texts with different key order and different
whitespace parse to `pyEq`-equal values, and the decode check against a
decoder producing the reordered text passes. -/
theorem c9_witness :
    loads c9t1 = some c9v1 ∧ loads c9t2 = some c9v2 ∧ pyEq c9v1 c9v2 = true ∧
      test_decoder "a = \"b\"" (some c9t1) true c9decoder = .ok () :=
  ⟨rfl, rfl, rfl,
   (c9_comparison_on_parsed_values c9t1 c9t2 c9v1 c9v2 rfl rfl rfl).1 "a = \"b\"" c9decoder rfl⟩

/-! ## Claim C10 -/

theorem locateValidPairs_cons_ok (vj : List String) (a : String) (rest : List String)
    (tail : List TestPair) (h : vj.contains a = true)
    (hrec : locateValidPairs vj rest = .ok tail) :
    locateValidPairs vj (a :: rest)
      = .ok ((some ⟨Category.valid, a, tomlExt⟩, some ⟨Category.valid, a, jsonExt⟩) :: tail) := by
  rw [locateValidPairs_cons_true vj a rest h, hrec]

theorem locateValidPairs_cons_err (vj : List String) (a : String) (rest : List String)
    (e : PyError) (h : vj.contains a = true)
    (hrec : locateValidPairs vj rest = .error e) :
    locateValidPairs vj (a :: rest) = .error e := by
  rw [locateValidPairs_cons_true vj a rest h, hrec]

theorem locateValidPairs_mem : ∀ (l vj : List String) (pairs : List TestPair),
    locateValidPairs vj l = .ok pairs → ∀ pr ∈ pairs,
    ∃ s, pr = (some ⟨Category.valid, s, tomlExt⟩, some ⟨Category.valid, s, jsonExt⟩) := by
  intro l
  induction l with
  | nil =>
    intro vj pairs h pr hpr
    rw [show locateValidPairs vj [] = Except.ok ([] : List TestPair) from rfl] at h
    injection h with h
    subst h
    exact absurd hpr (List.not_mem_nil pr)
  | cons a rest ih =>
    intro vj pairs h pr hpr
    by_cases ha : vj.contains a = true
    · cases hrec : locateValidPairs vj rest with
      | ok tail =>
        rw [locateValidPairs_cons_ok vj a rest tail ha hrec] at h
        injection h with h
        subst h
        rcases List.mem_cons.mp hpr with rfl | hmem
        · exact ⟨a, rfl⟩
        · exact ih vj tail hrec pr hmem
      | error e =>
        rw [locateValidPairs_cons_err vj a rest e ha hrec] at h
        exact Except.noConfusion h
    · have ha2 : vj.contains a = false := by
        cases h2 : vj.contains a
        · rfl
        · exact absurd h2 ha
      rw [locateValidPairs_cons_false vj a rest ha2] at h
      exact Except.noConfusion h

theorem locate_test_pairs_ok (d : TestsDir) (part3 : List TestPair)
    (hrec : locateValidPairs d.validJson d.validToml = .ok part3) :
    locate_test_pairs d
      = .ok (d.invalidToml.map (fun s => ((some ⟨Category.invalid, s, tomlExt⟩ : Option FsPath), (none : Option FsPath))) ++
             d.invalidJson.map (fun s => ((none : Option FsPath), (some ⟨Category.invalid, s, jsonExt⟩ : Option FsPath))) ++
             part3) := by
  unfold locate_test_pairs
  rw [hrec]

/-- Every pair the locator yields has one of three shapes: invalid format
only, invalid structured data only, or a valid matched same-stem pair. -/
theorem locate_test_pairs_mem (d : TestsDir) (pairs : List TestPair)
    (h : locate_test_pairs d = .ok pairs) : ∀ pr ∈ pairs,
    (∃ s, pr = (some ⟨Category.invalid, s, tomlExt⟩, none)) ∨
    (∃ s, pr = (none, some ⟨Category.invalid, s, jsonExt⟩)) ∨
    (∃ s, pr = (some ⟨Category.valid, s, tomlExt⟩, some ⟨Category.valid, s, jsonExt⟩)) := by
  intro pr hpr
  cases hrec : locateValidPairs d.validJson d.validToml with
  | error e =>
    unfold locate_test_pairs at h
    rw [hrec] at h
    exact Except.noConfusion h
  | ok part3 =>
    rw [locate_test_pairs_ok d part3 hrec] at h
    injection h with h
    subst h
    rcases List.mem_append.mp hpr with h12 | h3
    · rcases List.mem_append.mp h12 with hA | hB
      · obtain ⟨s, hs, rfl⟩ := List.mem_map.mp hA
        exact Or.inl ⟨s, rfl⟩
      · obtain ⟨s, hs, rfl⟩ := List.mem_map.mp hB
        exact Or.inr (Or.inl ⟨s, rfl⟩)
    · obtain ⟨s, hs⟩ := locateValidPairs_mem d.validToml d.validJson part3 hrec pr h3
      exact Or.inr (Or.inr ⟨s, hs⟩)

/-- C10: over the pairs the locator yields, the decoder run keeps exactly the
pairs with a format file (passing `clean_exit` = presence of the
structured-data side) and the encoder run keeps exactly the pairs with a
structured-data file (passing `clean_exit` = presence of the format side);
consequently on invalid-category fixtures `clean_exit` is false and on
valid-category fixtures it is true, for both runs. -/
theorem c10_clean_exit_matches_category (d : TestsDir) (pairs : List TestPair)
    (h : locate_test_pairs d = .ok pairs) :
    (∀ (t j : Option FsPath) (tp : FsPath), (t, j) ∈ pairs → t = some tp →
       (⟨tp, j.isSome, j⟩ : DecParam) ∈ decoderParams pairs) ∧
    (∀ (t j : Option FsPath) (jp : FsPath), (t, j) ∈ pairs → j = some jp →
       (⟨jp, t.isSome⟩ : EncParam) ∈ encoderParams pairs) ∧
    (∀ p : DecParam, p ∈ decoderParams pairs →
       p.clean_exit = p.json_file.isSome ∧
       (p.toml_file.category = Category.invalid → p.clean_exit = false) ∧
       (p.toml_file.category = Category.valid → p.clean_exit = true)) ∧
    (∀ q : EncParam, q ∈ encoderParams pairs →
       (q.json_file.category = Category.invalid → q.clean_exit = false) ∧
       (q.json_file.category = Category.valid → q.clean_exit = true)) := by
  refine ⟨?_, ?_, ?_, ?_⟩
  · intro t j tp hmem ht
    subst ht
    exact List.mem_filterMap.mpr ⟨(some tp, j), hmem, rfl⟩
  · intro t j jp hmem hj
    subst hj
    exact List.mem_filterMap.mpr ⟨(t, some jp), hmem, rfl⟩
  · intro p hp
    obtain ⟨pr, hpr, hf⟩ := List.mem_filterMap.mp hp
    rcases locate_test_pairs_mem d pairs h pr hpr with ⟨s, rfl⟩ | ⟨s, rfl⟩ | ⟨s, rfl⟩
    · injection hf with hf
      subst hf
      exact ⟨rfl, fun _ => rfl, fun hcat => Category.noConfusion hcat⟩
    · exact Option.noConfusion hf
    · injection hf with hf
      subst hf
      exact ⟨rfl, fun hcat => Category.noConfusion hcat, fun _ => rfl⟩
  · intro q hq
    obtain ⟨pr, hpr, hf⟩ := List.mem_filterMap.mp hq
    rcases locate_test_pairs_mem d pairs h pr hpr with ⟨s, rfl⟩ | ⟨s, rfl⟩ | ⟨s, rfl⟩
    · exact Option.noConfusion hf
    · injection hf with hf
      subst hf
      exact ⟨fun _ => rfl, fun hcat => Category.noConfusion hcat⟩
    · injection hf with hf
      subst hf
      exact ⟨fun hcat => Category.noConfusion hcat, fun _ => rfl⟩

def c10dir : TestsDir := ⟨["bt"], ["bj"], ["v"], ["v"]⟩

def c10pairs : List TestPair :=
  [(some ⟨Category.invalid, "bt", tomlExt⟩, none),
   (none, some ⟨Category.invalid, "bj", jsonExt⟩),
   (some ⟨Category.valid, "v", tomlExt⟩, some ⟨Category.valid, "v", jsonExt⟩)]

/-- C10 witness: on a corpus with one fixture of each shape, the invalid
format-only pair is checked by the decoder run with `clean_exit = false`,
and the valid structured-data side is checked by the encoder run with
`clean_exit = true`. -/
theorem c10_witness :
    (⟨⟨Category.invalid, "bt", tomlExt⟩, false, none⟩ : DecParam) ∈ decoderParams c10pairs ∧
      (⟨⟨Category.valid, "v", jsonExt⟩, true⟩ : EncParam) ∈ encoderParams c10pairs :=
  ⟨(c10_clean_exit_matches_category c10dir c10pairs rfl).1
     (some ⟨Category.invalid, "bt", tomlExt⟩) none ⟨Category.invalid, "bt", tomlExt⟩
     (by decide) rfl,
   (c10_clean_exit_matches_category c10dir c10pairs rfl).2.1
     (some ⟨Category.valid, "v", tomlExt⟩) (some ⟨Category.valid, "v", jsonExt⟩)
     ⟨Category.valid, "v", jsonExt⟩ (by decide) rfl⟩
